import Mathlib

/-!
Shallow embedding of the calcolatori-bench dashboard renderers.

Sources:
* `src/site/app.js`     — index-page leaderboard, detail page (header, exam
  evidence cards, duration formatter, output sections, collapsible blocks).
* `src/unnamed/part_000` — a second script with its own leaderboard variant and
  two pass/fail-matrix variants (`renderDetailed`, `renderDetailedResults`).

JavaScript values are modelled with plain Lean data: JSON objects used as
string-keyed maps become association lists (`jget` models bracket lookup,
returning `Option`, i.e. `undefined` for a missing key), absent-or-`null`
fields become `Option`, and JS numbers are modelled as `ℚ` (the concrete
inputs exercised here are exactly representable, so double rounding never
enters).  DOM writes are modelled by returning the markup string assigned to
the target element; appending a `<tr>` child element whose `innerHTML` is `h`
contributes `"<tr>" ++ h ++ "</tr>"` to its parent's content.  A property
access that would raise a `TypeError` (reading `.passed` from `undefined`) is
modelled in the `Except JsError` monad.
-/

namespace CalcBench

/-- A JavaScript runtime exception: reading a property of `undefined` raises a
`TypeError`. -/
inductive JsError where
  | typeError
  deriving DecidableEq

/-- A JSON/JavaScript value, used for the `passed` field of a matrix entry,
whose cell logic compares with strict equality (`=== true` / `=== false`),
so a missing or non-boolean field must be representable. -/
inductive JsVal where
  | undef
  | null
  | bool (b : Bool)
  | num (q : ℚ)
  | str (s : String)
  deriving DecidableEq

/-- `Stats` record of `model_stats` (spec §3): `passed`, `total`, `percentage`. -/
structure Stats where
  passed : Int
  total : Int
  percentage : ℚ
  deriving DecidableEq

/-- One `exam_results[exam][model]` entry; its `passed` field is an arbitrary
JS value (`{passed: boolean}` in well-formed data). -/
structure PassEntry where
  passed : JsVal
  deriving DecidableEq

/-- An `expected`/`output` evidence field: absent, a string, or an array of
strings (`renderOutputSection` accepts both representations). -/
inductive OutVal where
  | absent
  | str (s : String)
  | arr (items : List String)
  deriving DecidableEq

/-- One `detailed_results[model][exam]` entry (spec §3 `ExamResult`). -/
structure ExamResult where
  passed : Bool
  duration_seconds : Option ℚ
  expected : OutVal
  output : OutVal
  diff : Option String
  boot_output : Option String
  agent_output : Option String
  deriving DecidableEq

/-- The root `ResultSet` JSON document (spec §3).  String-keyed objects are
association lists; an absent `models`/`exams` field behaves like the empty
list (the scripts guard with `data.models?.length`). -/
structure ResultSet where
  models : List String
  exams : List String
  model_stats : List (String × Stats)
  exam_results : List (String × List (String × PassEntry))
  detailed_results : List (String × List (String × ExamResult))
  total_models : Int
  total_exams : Int
  generated_at : Option String
  deriving DecidableEq

/-- JS object bracket lookup `obj[key]`: `some` the stored value, or `none`
(i.e. `undefined`) when the key is missing. -/
def jget {α : Type} (obj : List (String × α)) (key : String) : Option α :=
  (obj.find? fun p => p.1 == key).map Prod.snd

/-- Character-level HTML text escaping.  Both `esc` (app.js) and `escapeHtml`
(part_000) assign `div.textContent = s` and read back `div.innerHTML`; the
browser's HTML fragment serialization of a text node replaces `&` by
`&amp;`, `<` by `&lt;` and `>` by `&gt;` and leaves every other character
unchanged.  This definition embeds that platform serialization. -/
def escChar (c : Char) : List Char :=
  if c = '&' then ['&', 'a', 'm', 'p', ';']
  else if c = '<' then ['&', 'l', 't', ';']
  else if c = '>' then ['&', 'g', 't', ';']
  else [c]

/-- `escChar` mapped over a character list. -/
def escList : List Char → List Char
  | [] => []
  | c :: cs => escChar c ++ escList cs

/-- `esc` from `src/site/app.js` (lines 43-47 / 224-228). -/
def esc (s : String) : String := ⟨escList s.data⟩

/-- `escapeHtml` from `src/unnamed/part_000` (lines 170-174); same body as
`esc`. -/
def escapeHtml (text : String) : String := ⟨escList text.data⟩

/-- HTML text-node parsing (entity decoding), the inverse direction of the
serialization embedded by `escList`; used to state that escaping loses no
information and that escaped text renders back as the original literal text. -/
def unescList : List Char → List Char
  | [] => []
  | c :: cs =>
    if c = '&' then
      if cs.take 4 = ['a', 'm', 'p', ';'] then '&' :: unescList (cs.drop 4)
      else if cs.take 3 = ['l', 't', ';'] then '<' :: unescList (cs.drop 3)
      else if cs.take 3 = ['g', 't', ';'] then '>' :: unescList (cs.drop 3)
      else c :: unescList cs
    else c :: unescList cs
  termination_by l => l.length
  decreasing_by
    all_goals simp [List.length_drop]
    all_goals omega

/-- String form of `unescList`. -/
def unescapeHtml (s : String) : String := ⟨unescList s.data⟩

/-- Rendering of a JS number to a string.  The dashboard only ever displays
integer-valued numbers (counts, whole-second durations, integer percentages),
which JS prints as plain integers; non-integral values get an unambiguous
fraction form so that the function stays injective. -/
def numToStr (q : ℚ) : String :=
  if q.den = 1 then toString q.num else toString q.num ++ "/" ++ toString q.den

/-- JS `Math.trunc`-style truncation toward zero, the rounding used by the JS
`%` remainder operator (`Rat.floor` is JS `Math.floor` on our rational model
of JS numbers). -/
def jsTrunc (q : ℚ) : Int :=
  if 0 ≤ q then Rat.floor q else -Rat.floor (-q)

/-- The JS `%` remainder: `a % b = a - b * trunc(a / b)`. -/
def jsMod (a b : ℚ) : ℚ := a - b * (jsTrunc (a / b) : ℚ)

/-- Uppercase hexadecimal digit. -/
def hexDigit (n : Nat) : Char :=
  if n < 10 then Char.ofNat (48 + n) else Char.ofNat (55 + n)

/-- UTF-8 encoding of one character, as used by `encodeURIComponent`. -/
def utf8Bytes (c : Char) : List Nat :=
  let n := c.toNat
  if n < 128 then [n]
  else if n < 2048 then [192 + n / 64, 128 + n % 64]
  else if n < 65536 then [224 + n / 4096, 128 + (n / 64) % 64, 128 + n % 64]
  else [240 + n / 262144, 128 + (n / 4096) % 64, 128 + (n / 64) % 64, 128 + n % 64]

/-- Percent-encoding `%XX` of one byte with uppercase hex. -/
def percentByte (b : Nat) : String :=
  "%" ++ String.singleton (hexDigit (b / 16)) ++ String.singleton (hexDigit (b % 16))

/-- Characters `encodeURIComponent` leaves unescaped:
`A-Z a-z 0-9 - _ . ! ~ * ' ( )`. -/
def uriUnreserved (c : Char) : Bool :=
  (('A' ≤ c && c ≤ 'Z') || ('a' ≤ c && c ≤ 'z') || ('0' ≤ c && c ≤ '9')) ||
    (c == '-' || c == '_' || c == '.' || c == '!' || c == '~' || c == '*' ||
      c == Char.ofNat 39 || c == '(' || c == ')')

/-- The platform `encodeURIComponent`: unreserved characters kept, every other
character's UTF-8 bytes percent-encoded. -/
def encodeURIComponent (s : String) : String :=
  String.join (s.data.map fun c =>
    if uriUnreserved c then String.singleton c
    else String.join ((utf8Bytes c).map percentByte))

/-- Index-carrying `Array.prototype.map` where the callback may raise (the
raise propagates, aborting the whole render, exactly as a JS exception
escapes `map`). -/
def mapIdxExcept {α β : Type} (f : Nat → α → Except JsError β) :
    Nat → List α → Except JsError (List β)
  | _, [] => .ok []
  | n, a :: as =>
    match f n a with
    | .error e => .error e
    | .ok b =>
      match mapIdxExcept f (n + 1) as with
      | .error e => .error e
      | .ok bs => .ok (b :: bs)

/-- Index-carrying `Array.prototype.map` (total form). -/
def mapIdxFrom {α β : Type} (f : Nat → α → β) : Nat → List α → List β
  | _, [] => []
  | n, a :: as => f n a :: mapIdxFrom f (n + 1) as

/-- `renderLeaderboard` from `src/site/app.js` (lines 13-32).  Returns the
markup assigned to `#leaderboard-body`.  `data.model_stats[model]` may be
`undefined`; the template then reads `s.passed`, i.e. raises `TypeError`. -/
def renderLeaderboard (data : ResultSet) : Except JsError String :=
  if data.models.length = 0 then
    .ok "<tr><td colspan=\"4\">No results yet</td></tr>"
  else
    match mapIdxExcept (fun i model =>
      match jget data.model_stats model with
      | none => .error JsError.typeError
      | some s => .ok
          ("\n            <tr onclick=\"window.location.href=\x27detail.html?model=" ++
            encodeURIComponent model ++ "\x27\" class=\"clickable\">\n                <td class=\"rank\">" ++
            toString (i + 1) ++ "</td>\n                <td class=\"model\">" ++ esc model ++
            "</td>\n                <td class=\"score\">" ++ toString s.passed ++ "/" ++ toString s.total ++
            "</td>\n                <td class=\"bar-cell\"><div class=\"bar\"><div class=\"bar-fill\" style=\"width:" ++
            numToStr s.percentage ++ "%\"></div></div></td>\n            </tr>\n        ")) 0 data.models with
    | .error e => .error e
    | .ok rows => .ok (String.join rows)

/-- `renderLeaderboard` from `src/unnamed/part_000` (lines 95-123).  Rows are
`<tr>` elements appended to the cleared `#leaderboard-body`; the returned
string is the final body content.  As in the app.js variant, a model missing
from `model_stats` raises `TypeError` at `stats.passed`. -/
def renderLeaderboardV2 (data : ResultSet) : Except JsError String :=
  if data.models.length = 0 then
    .ok "<tr><td colspan=\"4\" style=\"text-align:center\">No results available yet</td></tr>"
  else
    match mapIdxExcept (fun index model =>
      match jget data.model_stats model with
      | none => .error JsError.typeError
      | some stats => .ok
          ("<tr>" ++
            "\n            <td class=\"rank\">#" ++ toString (index + 1) ++
            "</td>\n            <td class=\"model-name\">" ++ escapeHtml model ++
            "</td>\n            <td class=\"score-pass\">" ++ toString stats.passed ++ "/" ++ toString stats.total ++
            "</td>\n            <td>\n                <div class=\"progress-bar\">\n                    <div class=\"progress-fill\" style=\"width: " ++
            numToStr stats.percentage ++
            "%\"></div>\n                </div>\n                <span style=\"margin-left: 10px;\">" ++
            numToStr stats.percentage ++ "%</span>\n            </td>\n        " ++
            "</tr>")) 0 data.models with
    | .error e => .error e
    | .ok rows => .ok (String.join rows)

/-- The three DOM writes of `renderHeader` (`src/site/app.js` lines 74-83):
`document.title`, the `#model-name` text, and the `#model-stats` text
(`none` when the element is left untouched because `stats` is falsy). -/
structure HeaderOut where
  title : String
  nameText : String
  statsText : Option String
  deriving DecidableEq

/-- `renderHeader` from `src/site/app.js` (lines 74-83).  The `model_stats`
lookup is guarded by `if (stats)`, so a missing key renders no stats line
instead of raising. -/
def renderHeader (modelName : String) (data : ResultSet) : HeaderOut :=
  { title := modelName ++ " - calcolatori-bench"
    nameText := modelName
    statsText := (jget data.model_stats modelName).map fun stats =>
      toString stats.passed ++ "/" ++ toString stats.total ++ " exams passed (" ++
        numToStr stats.percentage ++ "%)" }

/-- The `display` string computed by `renderDuration` (`src/site/app.js`
lines 136-147): seconds, minutes+seconds, or hours+minutes, via `Math.floor`
and the JS `%` remainder on the raw numeric value. -/
def durationDisplay (seconds : ℚ) : String :=
  if seconds < 60 then
    numToStr seconds ++ "s"
  else if seconds < 3600 then
    let mins := Rat.floor (seconds / 60)
    let secs := jsMod seconds 60
    toString mins ++ "m " ++ numToStr secs ++ "s"
  else
    let hours := Rat.floor (seconds / 3600)
    let mins := Rat.floor (jsMod seconds 3600 / 60)
    toString hours ++ "h " ++ toString mins ++ "m"

/-- `renderDuration` from `src/site/app.js` (lines 131-150): empty for a
`null`/`undefined` input, otherwise the `display` wrapped in a span. -/
def renderDuration : Option ℚ → String
  | none => ""
  | some seconds => "<span class=\"exam-duration\">" ++ durationDisplay seconds ++ "</span>"

/-- JS falsiness of an `expected`/`output` field (`!output`): absent
(`undefined`/`null`) or the empty string; arrays are always truthy. -/
def outFalsy : OutVal → Bool
  | .absent => true
  | .str s => s == ""
  | .arr _ => false

/-- `Array.isArray(output) && output.length === 0`. -/
def isArrEmpty : OutVal → Bool
  | .arr items => items.length == 0
  | _ => false

/-- `Array.isArray(output) ? output.join('\n') : output`. -/
def outContent : OutVal → String
  | .arr items => String.intercalate "\n" items
  | .str s => s
  | .absent => ""

/-- `renderOutputSection` from `src/site/app.js` (lines 152-164). -/
def renderOutputSection (title : String) (output : OutVal) : String :=
  if outFalsy output || isArrEmpty output then ""
  else
    "\n        <div class=\"detail-section\">\n            <h4>" ++ title ++
      "</h4>\n            <pre class=\"output-block\">" ++ esc (outContent output) ++
      "</pre>\n        </div>\n    "

/-- `renderDiffSection` from `src/site/app.js` (lines 166-176); `!diff` is
true for an absent or empty diff. -/
def renderDiffSection (diff : Option String) : String :=
  if diff.getD "" == "" then ""
  else
    "\n        <div class=\"detail-section\">\n            <h4>Code Diff</h4>\n            <pre class=\"diff-block\">" ++
      esc (diff.getD "") ++ "</pre>\n        </div>\n    "

/-- `renderBootOutput` from `src/site/app.js` (lines 178-190): omitted when
falsy (absent or empty), otherwise a collapsible section whose `<pre>`
carries the `collapsed` class. -/
def renderBootOutput (bootOutput : Option String) : String :=
  if bootOutput.getD "" == "" then ""
  else
    "\n        <div class=\"detail-section collapsible\">\n            <h4 class=\"collapsible-header\" onclick=\"toggleCollapse(this)\">\n                Boot Output <span class=\"toggle-icon\">+</span>\n            </h4>\n            <pre class=\"output-block collapsed\">" ++
      esc (bootOutput.getD "") ++ "</pre>\n        </div>\n    "

/-- `renderAgentOutput` from `src/site/app.js` (lines 192-209): a stable
"Not available yet" placeholder section when falsy (absent or empty),
otherwise a collapsible section whose `<pre>` carries the `collapsed`
class. -/
def renderAgentOutput (agentOutput : Option String) : String :=
  if agentOutput.getD "" == "" then
    "\n            <div class=\"detail-section\">\n                <h4>Agent Output</h4>\n                <p class=\"no-data\">Not available yet</p>\n            </div>\n        "
  else
    "\n        <div class=\"detail-section collapsible\">\n            <h4 class=\"collapsible-header\" onclick=\"toggleCollapse(this)\">\n                Agent Output <span class=\"toggle-icon\">+</span>\n            </h4>\n            <pre class=\"output-block collapsed\">" ++
      esc (agentOutput.getD "") ++ "</pre>\n        </div>\n    "

/-- One evidence card of `renderExams` (`src/site/app.js` lines 94-128): the
"No result" card when `detailed[exam]` is `undefined`, else the full card. -/
def examCard (detailed : List (String × ExamResult)) (exam : String) : String :=
  match jget detailed exam with
  | none =>
    "\n                <div class=\"exam-card na\">\n                    <div class=\"exam-header\">\n                        <span class=\"exam-name\">" ++
      esc exam ++
      "</span>\n                        <span class=\"exam-status\">No result</span>\n                    </div>\n                </div>\n            "
  | some result =>
    let statusClass := if result.passed then "pass" else "fail"
    let statusText := if result.passed then "PASSED" else "FAILED"
    "\n            <div class=\"exam-card " ++ statusClass ++
      "\">\n                <div class=\"exam-header\">\n                    <span class=\"exam-name\">" ++
      esc exam ++
      "</span>\n                    <div class=\"exam-meta\">\n                        " ++
      renderDuration result.duration_seconds ++
      "\n                        <span class=\"exam-status\">" ++ statusText ++
      "</span>\n                    </div>\n                </div>\n                <div class=\"exam-details\">\n                    " ++
      renderOutputSection "Expected Output" result.expected ++
      "\n                    " ++
      renderOutputSection "Actual Output" result.output ++
      "\n                    " ++
      renderDiffSection result.diff ++
      "\n                    " ++
      renderBootOutput result.boot_output ++
      "\n                    " ++
      renderAgentOutput result.agent_output ++
      "\n                </div>\n            </div>\n        "

/-- `renderExams` from `src/site/app.js` (lines 85-129): the content written
to `#exams-container` — a no-data paragraph when the model has no
`detailed_results` entry or `exams` is empty, otherwise the joined evidence
cards, one per exam in `exams` order. -/
def renderExams (modelName : String) (data : ResultSet) : String :=
  match jget data.detailed_results modelName with
  | none => "<p class=\"no-data\">No exam results available</p>"
  | some detailed =>
    if data.exams.length = 0 then "<p class=\"no-data\">No exam results available</p>"
    else String.join (data.exams.map (examCard detailed))

/-- `exam_results[exam]?.[model]` — the optional-chained pair lookup both
matrix variants use. -/
def pairLookup (data : ResultSet) (exam model : String) : Option PassEntry :=
  (jget data.exam_results exam).bind fun examMap => jget examMap model

/-- One matrix cell of `renderDetailed` (`src/unnamed/part_000` lines 45-50):
strict comparison of `r?.passed` with `true` and `false`; anything else gets
the neutral marker. -/
def cellV1 (r : Option PassEntry) : String :=
  if r.map PassEntry.passed = some (JsVal.bool true) then "<td class=\"pass\">&#10003;</td>"
  else if r.map PassEntry.passed = some (JsVal.bool false) then "<td class=\"fail\">&#10007;</td>"
  else "<td class=\"na\">-</td>"

/-- The contribution of one pair to a matrix row's `passed` counter: `1`
exactly when `r?.passed === true`. -/
def passInc (r : Option PassEntry) : Nat :=
  if r.map PassEntry.passed = some (JsVal.bool true) then 1 else 0

/-- One body row of `renderDetailed` (`src/unnamed/part_000` lines 43-52).
The JS closure mutates a `passed` counter while mapping over `data.exams`;
embedded as a fold carrying `(passed, cells)`. -/
def detailedRowV1 (data : ResultSet) (model : String) : String :=
  let st := data.exams.foldl (fun (acc : Nat × List String) exam =>
    let r := pairLookup data exam model
    if r.map PassEntry.passed = some (JsVal.bool true) then
      (acc.1 + 1, acc.2 ++ ["<td class=\"pass\">&#10003;</td>"])
    else if r.map PassEntry.passed = some (JsVal.bool false) then
      (acc.1, acc.2 ++ ["<td class=\"fail\">&#10007;</td>"])
    else
      (acc.1, acc.2 ++ ["<td class=\"na\">-</td>"])) (0, [])
  "<tr><td class=\"model-col\">" ++ esc model ++ "</td>" ++ String.join st.2 ++
    "<td class=\"pass\">" ++ toString st.1 ++ "/" ++ toString data.exams.length ++ "</td></tr>"

/-- `renderDetailed` from `src/unnamed/part_000` (lines 35-53): `none` when
the guard `!data.models?.length || !data.exams?.length` makes the function
return *without touching the DOM*; otherwise `some (thead, tbody)` markup. -/
def renderDetailed (data : ResultSet) : Option (String × String) :=
  if data.models.length = 0 ∨ data.exams.length = 0 then none
  else some
    ("<tr><th class=\"model-col\">Model</th>" ++
      String.join (data.exams.map fun e => "<th>" ++ esc e ++ "</th>") ++
      "<th>Total</th></tr>",
     String.join (data.models.map (detailedRowV1 data)))

/-- One matrix cell of `renderDetailedResults` (`src/unnamed/part_000`
lines 155-162), same strict-equality logic with different glyphs. -/
def cellV2 (result : Option PassEntry) : String :=
  if result.map PassEntry.passed = some (JsVal.bool true) then "<td class=\"pass-icon\">&#10004;</td>"
  else if result.map PassEntry.passed = some (JsVal.bool false) then "<td class=\"fail-icon\">&#10008;</td>"
  else "<td class=\"na-icon\">—</td>"

/-- One body row of `renderDetailedResults` (`src/unnamed/part_000`
lines 145-167).  The JS mutates `passed`, `total` and `row.innerHTML` while
iterating `data.exams`; embedded as a fold carrying `(passed, total, html)`. -/
def detailedRowV2 (data : ResultSet) (model : String) : String :=
  let st := data.exams.foldl (fun (acc : Nat × Nat × String) exam =>
    let result := pairLookup data exam model
    let total := acc.2.1 + 1
    if result.map PassEntry.passed = some (JsVal.bool true) then
      (acc.1 + 1, total, acc.2.2 ++ "<td class=\"pass-icon\">&#10004;</td>")
    else if result.map PassEntry.passed = some (JsVal.bool false) then
      (acc.1, total, acc.2.2 ++ "<td class=\"fail-icon\">&#10008;</td>")
    else
      (acc.1, total, acc.2.2 ++ "<td class=\"na-icon\">—</td>"))
    (0, 0, "<td class=\"model-name\">" ++ escapeHtml model ++ "</td>")
  "<tr>" ++ st.2.2 ++ "<td class=\"score-pass\">" ++ toString st.1 ++ "/" ++ toString st.2.1 ++
    "</td>" ++ "</tr>"

/-- `renderDetailedResults` from `src/unnamed/part_000` (lines 125-168):
clears `#results-header` and `#results-body`, then either writes the single
informational row (empty `models` or `exams`) or the header row and one body
row per model.  Returns the final `(thead, tbody)` content. -/
def renderDetailedResults (data : ResultSet) : String × String :=
  if data.models.length = 0 ∨ data.exams.length = 0 then
    ("", "<tr><td style=\"text-align:center\">No detailed results available</td></tr>")
  else
    ("<tr>" ++ "<th>Model</th>" ++
      String.join (data.exams.map fun exam => "<th>" ++ escapeHtml exam ++ "</th>") ++
      "<th>Total</th>" ++ "</tr>",
     String.join (data.models.map (detailedRowV2 data)))

/-- Failure of the artifact fetch (network or parse). -/
inductive LoadError where
  | failed
  deriving DecidableEq

/-- Outcome of the detail page's `DOMContentLoaded` handler. -/
inductive DetailAction where
  | redirect (url : String)
  | rendered (header : HeaderOut) (examsHtml : String)
  | loadFailed (msg : String)
  deriving DecidableEq

/-- The detail page's `DOMContentLoaded` handler (`src/site/app.js`
lines 49-72).  `params.get('model')` is `none` when the query parameter is
missing; `!modelName` is also true for the empty string.  The redirect
branches perform no render at all (in the source, the `modelName` check even
precedes the fetch). -/
def detailPage (queryModel : Option String) (fetched : Except LoadError ResultSet) :
    DetailAction :=
  match queryModel with
  | none => .redirect "index.html"
  | some modelName =>
    if modelName == "" then .redirect "index.html"
    else
      match fetched with
      | .error _ => .loadFailed "<p class=\"error\">Failed to load results</p>"
      | .ok data =>
        if data.models.contains modelName then
          .rendered (renderHeader modelName data) (renderExams modelName data)
        else .redirect "index.html"

/-- Concrete input for C1: one ranked model with no `model_stats` entry. -/
def missingStatsData : ResultSet :=
  ⟨["A"], [], [], [], [], 1, 0, none⟩

/-- The C2 scenario: `models=["A","B"]`, `exams=["E1"]`,
`exam_results={E1:{A:{passed:true}}}`. -/
def c2Scenario : ResultSet :=
  ⟨["A", "B"], ["E1"], [], [("E1", [("A", ⟨JsVal.bool true⟩)])], [], 2, 1, none⟩

/-- Concrete input for C5: empty `models`, one exam. -/
def emptyModelsData : ResultSet :=
  ⟨[], ["E1"], [], [], [], 0, 1, none⟩

/-- Concrete input for C7: one model with a full stats entry. -/
def oneModelData : ResultSet :=
  ⟨["A"], [], [("A", ⟨1, 1, 100⟩)], [], [], 1, 0, none⟩

/-- A concrete exam result used by the C8 witness. -/
def sampleResult : ExamResult :=
  ⟨true, some 5, OutVal.str "out", OutVal.str "out", none, none, some "log"⟩

/-- Concrete input for C8: model `M` has a detail entry for `E2` only. -/
def partialDetailData : ResultSet :=
  ⟨["M"], ["E1", "E2"], [], [], [("M", [("E2", sampleResult)])], 1, 2, none⟩

/-- Concrete input for C10: an entry whose `passed` field is the number 1. -/
def nonBoolData : ResultSet :=
  ⟨["A"], ["E1"], [], [("E1", [("A", ⟨JsVal.num 1⟩)])], [], 1, 1, none⟩

/-! ### Helper lemmas -/

/-- Appending the empty string on the right is the identity. -/
theorem sAppendEmpty (s : String) : s ++ "" = s := by
  cases s with
  | mk l => exact congrArg String.mk l.append_nil

/-- Appending the empty string on the left is the identity. -/
theorem sEmptyAppend (s : String) : "" ++ s = s := by
  cases s with
  | mk l => rfl

/-- String append is associative. -/
theorem sAppendAssoc (a b c : String) : a ++ b ++ c = a ++ (b ++ c) := by
  cases a with
  | mk la =>
    cases b with
    | mk lb =>
      cases c with
      | mk lc => exact congrArg String.mk (List.append_assoc la lb lc)

/-- `String.join`'s underlying fold, restarted from an arbitrary prefix. -/
theorem sFoldlAppend (l : List String) :
    ∀ a : String, l.foldl (fun r s => r ++ s) a = a ++ l.foldl (fun r s => r ++ s) "" := by
  induction l with
  | nil => intro a; exact (sAppendEmpty a).symm
  | cons s ss ih =>
    intro a
    show ss.foldl (fun r s => r ++ s) (a ++ s) = a ++ ss.foldl (fun r s => r ++ s) ("" ++ s)
    rw [ih (a ++ s), ih ("" ++ s), sEmptyAppend, sAppendAssoc]

/-- `String.join` distributes over `cons`. -/
theorem sJoinCons (s : String) (l : List String) :
    String.join (s :: l) = s ++ String.join l := by
  show l.foldl (fun r s => r ++ s) ("" ++ s) = s ++ String.join l
  rw [sEmptyAppend, String.join, sFoldlAppend]

/-- `Rat.floor` (the computable floor used in the embedding, i.e. JS
`Math.floor`) agrees with the mathematical floor `⌊⌋`. -/
theorem ratFloor_eq (q : ℚ) : Rat.floor q = ⌊q⌋ :=
  (Rat.floor_def' q).trans Rat.floor_def.symm

/-- Decoding inverts the escaping serialization: escaping loses no
information, and escaped text renders back as the original literal text. -/
theorem unesc_escList (l : List Char) : unescList (escList l) = l := by
  induction l with
  | nil => simp [escList, unescList]
  | cons c cs ih =>
    by_cases h1 : c = '&'
    · subst h1
      show unescList ('&' :: 'a' :: 'm' :: 'p' :: ';' :: escList cs) = '&' :: cs
      rw [unescList]
      simp [List.take, List.drop, ih]
    · by_cases h2 : c = '<'
      · subst h2
        show unescList ('&' :: 'l' :: 't' :: ';' :: escList cs) = '<' :: cs
        rw [unescList]
        simp [List.take, List.drop, ih]
      · by_cases h3 : c = '>'
        · subst h3
          show unescList ('&' :: 'g' :: 't' :: ';' :: escList cs) = '>' :: cs
          rw [unescList]
          simp [List.take, List.drop, ih]
        · have he : escList (c :: cs) = c :: escList cs := by
            simp [escList, escChar, h1, h2, h3]
          rw [he, unescList, if_neg h1, ih]

/-- Escaped text contains no raw angle bracket, hence no markup. -/
theorem escList_angle (l : List Char) : '<' ∉ escList l ∧ '>' ∉ escList l := by
  induction l with
  | nil => simp [escList]
  | cons c cs ih =>
    rw [escList]
    by_cases h1 : c = '&'
    · subst h1; simp [escChar, ih.1, ih.2]
    · by_cases h2 : c = '<'
      · subst h2; simp [escChar, ih.1, ih.2]
      · by_cases h3 : c = '>'
        · subst h3; simp [escChar, ih.1, ih.2]
        · simp [escChar, h1, h2, h3, ih.1, ih.2]
          exact ⟨fun h => h2 h.symm, fun h => h3 h.symm⟩

/-- A leaderboard row map raises `TypeError` as soon as some listed model has
no `model_stats` entry. -/
theorem leaderboard_map_error (stats : List (String × Stats))
    (tpl : String → Nat → Stats → String) (m : String) :
    ∀ l : List String, m ∈ l → jget stats m = none → ∀ n,
      mapIdxExcept (fun i model =>
        match jget stats model with
        | none => .error JsError.typeError
        | some s => .ok (tpl model i s)) n l = .error JsError.typeError := by
  intro l
  induction l with
  | nil => intro hmem; cases hmem
  | cons a as ih =>
    intro hmem hnone n
    cases h : jget stats a with
    | none => simp [mapIdxExcept, h]
    | some s =>
      have hma : m ∈ as := by
        rcases List.mem_cons.mp hmem with rfl | h2
        · rw [hnone] at h; cases h
        · exact h2
      simp [mapIdxExcept, h, ih hma hnone]

/-- When every listed model has a `model_stats` entry, the leaderboard row map
succeeds and produces one row per model, in source order, with the index
threaded through unchanged. -/
theorem leaderboard_map_total (stats : List (String × Stats))
    (tpl : String → Nat → Stats → String) :
    ∀ l : List String, (∀ m ∈ l, (jget stats m).isSome) → ∀ n,
      mapIdxExcept (fun i model =>
        match jget stats model with
        | none => .error JsError.typeError
        | some s => .ok (tpl model i s)) n l
      = .ok (mapIdxFrom (fun i model =>
          tpl model i ((jget stats model).getD ⟨0, 0, 0⟩)) n l) := by
  intro l
  induction l with
  | nil => intro _ n; simp [mapIdxExcept, mapIdxFrom]
  | cons a as ih =>
    intro h n
    obtain ⟨s, hs⟩ := Option.isSome_iff_exists.mp (h a (by simp))
    have hrec := ih (fun m hm => h m (by simp [hm])) (n + 1)
    simp [mapIdxExcept, mapIdxFrom, hs, hrec]

/-- The V1 matrix row fold equals a per-cell map plus a per-cell pass count:
the mutable `passed` counter sums `passInc` over the row and the emitted
cells are `cellV1` of each pair lookup, in `exams` order. -/
theorem foldV1_char (data : ResultSet) (model : String) :
    ∀ (exams : List String) (acc : Nat × List String),
      exams.foldl (fun (acc : Nat × List String) exam =>
        let r := pairLookup data exam model
        if r.map PassEntry.passed = some (JsVal.bool true) then
          (acc.1 + 1, acc.2 ++ ["<td class=\"pass\">&#10003;</td>"])
        else if r.map PassEntry.passed = some (JsVal.bool false) then
          (acc.1, acc.2 ++ ["<td class=\"fail\">&#10007;</td>"])
        else
          (acc.1, acc.2 ++ ["<td class=\"na\">-</td>"])) acc
      = (acc.1 + (exams.map fun e => passInc (pairLookup data e model)).sum,
          acc.2 ++ exams.map fun e => cellV1 (pairLookup data e model)) := by
  intro exams
  induction exams with
  | nil => intro acc; simp
  | cons e es ih =>
    intro acc
    have hstep : (let r := pairLookup data e model
        if r.map PassEntry.passed = some (JsVal.bool true) then
          (acc.1 + 1, acc.2 ++ ["<td class=\"pass\">&#10003;</td>"])
        else if r.map PassEntry.passed = some (JsVal.bool false) then
          (acc.1, acc.2 ++ ["<td class=\"fail\">&#10007;</td>"])
        else
          (acc.1, acc.2 ++ ["<td class=\"na\">-</td>"]))
        = (acc.1 + passInc (pairLookup data e model),
            acc.2 ++ [cellV1 (pairLookup data e model)]) := by
      by_cases h1 : (pairLookup data e model).map PassEntry.passed = some (JsVal.bool true)
      · simp [h1, passInc, cellV1]
      · by_cases h2 : (pairLookup data e model).map PassEntry.passed = some (JsVal.bool false)
        · simp [h1, h2, passInc, cellV1]
        · simp [h1, h2, passInc, cellV1]
    rw [List.foldl_cons, ih, hstep]
    simp [Nat.add_assoc]

/-- The V1 matrix row: model cell, one `cellV1` per exam in order, and a
total cell `"{passed}/{exam count}"` where `passed` sums `passInc`. -/
theorem detailedRowV1_char (data : ResultSet) (model : String) :
    detailedRowV1 data model =
      "<tr><td class=\"model-col\">" ++ esc model ++ "</td>" ++
        String.join (data.exams.map fun exam => cellV1 (pairLookup data exam model)) ++
        "<td class=\"pass\">" ++
        toString ((data.exams.map fun exam => passInc (pairLookup data exam model)).sum) ++
        "/" ++ toString data.exams.length ++ "</td></tr>" := by
  unfold detailedRowV1
  rw [foldV1_char data model data.exams (0, [])]
  simp

/-- The V2 matrix row fold: `passed` sums `passInc`, `total` counts every
exam (present or not), and the accumulated markup appends `cellV2` of each
pair lookup, in `exams` order. -/
theorem foldV2_char (data : ResultSet) (model : String) :
    ∀ (exams : List String) (acc : Nat × Nat × String),
      exams.foldl (fun (acc : Nat × Nat × String) exam =>
        let result := pairLookup data exam model
        let total := acc.2.1 + 1
        if result.map PassEntry.passed = some (JsVal.bool true) then
          (acc.1 + 1, total, acc.2.2 ++ "<td class=\"pass-icon\">&#10004;</td>")
        else if result.map PassEntry.passed = some (JsVal.bool false) then
          (acc.1, total, acc.2.2 ++ "<td class=\"fail-icon\">&#10008;</td>")
        else
          (acc.1, total, acc.2.2 ++ "<td class=\"na-icon\">—</td>")) acc
      = (acc.1 + (exams.map fun e => passInc (pairLookup data e model)).sum,
          acc.2.1 + exams.length,
          acc.2.2 ++ String.join (exams.map fun e => cellV2 (pairLookup data e model))) := by
  intro exams
  induction exams with
  | nil =>
    intro acc
    simp [String.join, sAppendEmpty]
  | cons e es ih =>
    intro acc
    have hstep : (let result := pairLookup data e model
        let total := acc.2.1 + 1
        if result.map PassEntry.passed = some (JsVal.bool true) then
          (acc.1 + 1, total, acc.2.2 ++ "<td class=\"pass-icon\">&#10004;</td>")
        else if result.map PassEntry.passed = some (JsVal.bool false) then
          (acc.1, total, acc.2.2 ++ "<td class=\"fail-icon\">&#10008;</td>")
        else
          (acc.1, total, acc.2.2 ++ "<td class=\"na-icon\">—</td>"))
        = (acc.1 + passInc (pairLookup data e model), acc.2.1 + 1,
            acc.2.2 ++ cellV2 (pairLookup data e model)) := by
      by_cases h1 : (pairLookup data e model).map PassEntry.passed = some (JsVal.bool true)
      · simp [h1, passInc, cellV2]
      · by_cases h2 : (pairLookup data e model).map PassEntry.passed = some (JsVal.bool false)
        · simp [h1, h2, passInc, cellV2]
        · simp [h1, h2, passInc, cellV2]
    rw [List.foldl_cons, ih, hstep]
    rw [List.map_cons, List.sum_cons, List.map_cons, sJoinCons, sAppendAssoc]
    simp [Nat.add_assoc]
    omega

/-- The V2 matrix row: model cell, one `cellV2` per exam in order, and a
total cell `"{passed}/{total}"` where `total` equals the exam count. -/
theorem detailedRowV2_char (data : ResultSet) (model : String) :
    detailedRowV2 data model =
      "<tr>" ++ ("<td class=\"model-name\">" ++ escapeHtml model ++ "</td>" ++
        String.join (data.exams.map fun exam => cellV2 (pairLookup data exam model))) ++
        "<td class=\"score-pass\">" ++
        toString ((data.exams.map fun exam => passInc (pairLookup data exam model)).sum) ++
        "/" ++ toString data.exams.length ++ "</td>" ++ "</tr>" := by
  unfold detailedRowV2
  rw [foldV2_char data model data.exams
    (0, 0, "<td class=\"model-name\">" ++ escapeHtml model ++ "</td>")]
  simp

/-! ### Claims -/

/-- C1 counterexample: with `models = ["A"]` and an empty `model_stats`, the
Leaderboard Renderer does *not* complete — the unguarded `s.passed` read
raises a `TypeError`, contradicting the claim that every renderer lookup
tolerates a missing key without throwing. -/
theorem c1_counterexample :
    renderLeaderboard missingStatsData = .error JsError.typeError := rfl

/-- C1 (amended): the optional-chained lookups and the guarded detail-page
header tolerate a missing key — `renderHeader` completes, rendering no stats
line, for a model absent from `model_stats` — but both Leaderboard Renderer
variants raise a `TypeError` for such a model. -/
theorem c1_lookup_tolerance (data : ResultSet) (m : String)
    (hmem : m ∈ data.models) (hmiss : jget data.model_stats m = none) :
    renderLeaderboard data = .error JsError.typeError ∧
    renderLeaderboardV2 data = .error JsError.typeError ∧
    renderHeader m data =
      { title := m ++ " - calcolatori-bench", nameText := m, statsText := none } := by
  have hne : ¬ data.models.length = 0 := by
    cases hl : data.models with
    | nil => rw [hl] at hmem; cases hmem
    | cons a as => simp
  refine ⟨?_, ?_, ?_⟩
  · unfold renderLeaderboard
    rw [if_neg hne, leaderboard_map_error data.model_stats _ m data.models hmem hmiss 0]
  · unfold renderLeaderboardV2
    rw [if_neg hne, leaderboard_map_error data.model_stats _ m data.models hmem hmiss 0]
  · unfold renderHeader
    rw [hmiss]
    rfl

/-- C1 witness: the amended statement evaluated at `missingStatsData`. -/
theorem c1_witness :
    renderLeaderboard missingStatsData = .error JsError.typeError ∧
    renderLeaderboardV2 missingStatsData = .error JsError.typeError ∧
    renderHeader "A" missingStatsData =
      { title := "A - calcolatori-bench", nameText := "A", statsText := none } :=
  c1_lookup_tolerance missingStatsData "A" (by decide) (by decide)

set_option maxRecDepth 8192 in
/-- C2: in both matrix variants, a row consists of one cell per exam in
`exams` order (`cellV1`/`cellV2` of the pair lookup) and ends with
`"{passed}/{exam count}"`, where `passed` sums `passInc` per pair; an absent
pair gets the neutral marker and contributes `0` to `passed` while still
counting in the total; and on the scenario
`models=["A","B"], exams=["E1"], exam_results={E1:{A:{passed:true}}}`
row A shows the pass marker and `1/1` and row B the neutral marker and
`0/1`. -/
theorem c2_matrix_absent_pairs :
    (∀ (data : ResultSet) (model : String),
      detailedRowV1 data model =
        "<tr><td class=\"model-col\">" ++ esc model ++ "</td>" ++
          String.join (data.exams.map fun exam => cellV1 (pairLookup data exam model)) ++
          "<td class=\"pass\">" ++
          toString ((data.exams.map fun exam => passInc (pairLookup data exam model)).sum) ++
          "/" ++ toString data.exams.length ++ "</td></tr>" ∧
      detailedRowV2 data model =
        "<tr>" ++ ("<td class=\"model-name\">" ++ escapeHtml model ++ "</td>" ++
          String.join (data.exams.map fun exam => cellV2 (pairLookup data exam model))) ++
          "<td class=\"score-pass\">" ++
          toString ((data.exams.map fun exam => passInc (pairLookup data exam model)).sum) ++
          "/" ++ toString data.exams.length ++ "</td>" ++ "</tr>") ∧
    cellV1 none = "<td class=\"na\">-</td>" ∧
    cellV2 none = "<td class=\"na-icon\">—</td>" ∧
    passInc none = 0 ∧
    renderDetailed c2Scenario = some
      ("<tr><th class=\"model-col\">Model</th><th>E1</th><th>Total</th></tr>",
       "<tr><td class=\"model-col\">A</td><td class=\"pass\">&#10003;</td><td class=\"pass\">1/1</td></tr>" ++
         "<tr><td class=\"model-col\">B</td><td class=\"na\">-</td><td class=\"pass\">0/1</td></tr>") ∧
    renderDetailedResults c2Scenario =
      ("<tr><th>Model</th><th>E1</th><th>Total</th></tr>",
       "<tr><td class=\"model-name\">A</td><td class=\"pass-icon\">&#10004;</td><td class=\"score-pass\">1/1</td></tr>" ++
         "<tr><td class=\"model-name\">B</td><td class=\"na-icon\">—</td><td class=\"score-pass\">0/1</td></tr>") := by
  refine ⟨fun data model => ⟨detailedRowV1_char data model, detailedRowV2_char data model⟩,
    rfl, rfl, rfl, by decide, by decide⟩

/-- C3: the Duration Formatter renders empty for an absent input; for a
non-negative number it follows exactly the spec's floor/mod formulas in the
three ranges, with the exact boundary values `0s`, `59s`, `1m 0s`,
`59m 59s`, `1h 0m`; fractional inputs follow the same floor/mod rule on the
raw value. -/
theorem c3_duration_format :
    renderDuration none = "" ∧
    (∀ s : ℚ, 0 ≤ s →
      renderDuration (some s) =
        "<span class=\"exam-duration\">" ++ durationDisplay s ++ "</span>" ∧
      (s < 60 → durationDisplay s = numToStr s ++ "s") ∧
      (60 ≤ s → s < 3600 →
        durationDisplay s =
          toString ⌊s / 60⌋ ++ "m " ++ numToStr (s - 60 * (⌊s / 60⌋ : ℚ)) ++ "s") ∧
      (3600 ≤ s →
        durationDisplay s =
          toString ⌊s / 3600⌋ ++ "h " ++
            toString ⌊(s - 3600 * (⌊s / 3600⌋ : ℚ)) / 60⌋ ++ "m")) ∧
    durationDisplay 0 = "0s" ∧
    durationDisplay 59 = "59s" ∧
    durationDisplay 60 = "1m 0s" ∧
    durationDisplay 3599 = "59m 59s" ∧
    durationDisplay 3600 = "1h 0m" := by
  have hmod : ∀ s : ℚ, 0 ≤ s → ∀ b : ℚ, 0 < b →
      jsMod s b = s - b * (⌊s / b⌋ : ℚ) := by
    intro s hs b hb
    unfold jsMod jsTrunc
    rw [if_pos (div_nonneg hs hb.le), ratFloor_eq]
  have hb1 : ∀ s : ℚ, s < 60 → durationDisplay s = numToStr s ++ "s" := by
    intro s hlt
    simp only [durationDisplay]
    rw [if_pos hlt]
  have hb2 : ∀ s : ℚ, 0 ≤ s → 60 ≤ s → s < 3600 →
      durationDisplay s =
        toString ⌊s / 60⌋ ++ "m " ++ numToStr (s - 60 * (⌊s / 60⌋ : ℚ)) ++ "s" := by
    intro s hs h60 h3600
    simp only [durationDisplay]
    rw [if_neg (not_lt.mpr h60), if_pos h3600, hmod s hs 60 (by norm_num), ratFloor_eq]
  have hb3 : ∀ s : ℚ, 0 ≤ s → 3600 ≤ s →
      durationDisplay s =
        toString ⌊s / 3600⌋ ++ "h " ++
          toString ⌊(s - 3600 * (⌊s / 3600⌋ : ℚ)) / 60⌋ ++ "m" := by
    intro s hs h3600
    simp only [durationDisplay]
    rw [if_neg (not_lt.mpr (by linarith)), if_neg (not_lt.mpr h3600),
      hmod s hs 3600 (by norm_num), ratFloor_eq, ratFloor_eq]
  refine ⟨rfl, fun s hs => ⟨rfl, hb1 s, hb2 s hs, hb3 s hs⟩, ?_, ?_, ?_, ?_, ?_⟩
  · rw [hb1 0 (by norm_num)]; decide
  · rw [hb1 59 (by norm_num)]; decide
  · rw [hb2 60 (by norm_num) (by norm_num) (by norm_num),
      show ⌊(60 : ℚ) / 60⌋ = 1 by norm_num,
      show (60 : ℚ) - 60 * ((1 : ℤ) : ℚ) = 0 by norm_num]
    decide
  · rw [hb2 3599 (by norm_num) (by norm_num) (by norm_num),
      show ⌊(3599 : ℚ) / 60⌋ = 59 by norm_num,
      show (3599 : ℚ) - 60 * ((59 : ℤ) : ℚ) = 59 by norm_num]
    decide
  · rw [hb3 3600 (by norm_num) (by norm_num),
      show ⌊(3600 : ℚ) / 3600⌋ = 1 by norm_num,
      show ((3600 : ℚ) - 3600 * ((1 : ℤ) : ℚ)) = 0 by norm_num,
      show ⌊(0 : ℚ) / 60⌋ = 0 by norm_num]
    decide

/-- C3 witness: the minutes-range clause evaluated at 90 seconds. -/
theorem c3_witness :
    (0 : ℚ) ≤ 90 ∧
    renderDuration (some (90 : ℚ)) =
      "<span class=\"exam-duration\">" ++ durationDisplay 90 ++ "</span>" ∧
    durationDisplay (90 : ℚ) =
      toString ⌊(90 : ℚ) / 60⌋ ++ "m " ++
        numToStr ((90 : ℚ) - 60 * (⌊(90 : ℚ) / 60⌋ : ℚ)) ++ "s" := by
  have h := c3_duration_format.2.1 90 (by norm_num)
  exact ⟨by norm_num, h.1, h.2.2.1 (by norm_num) (by norm_num)⟩

/-- C4: the HTML Escaper loses no information — decoding the serialized text
restores the input — and its output contains no raw angle bracket, so a
model name containing `<b>` is emitted as the literal text `&lt;b&gt;` and
can never parse as markup; the part_000 `escapeHtml` agrees with `esc`. -/
theorem c4_escaper :
    (∀ s : String,
      unescapeHtml (esc s) = s ∧ '<' ∉ (esc s).data ∧ '>' ∉ (esc s).data) ∧
    esc "<b>" = "&lt;b&gt;" ∧
    (∀ s : String, escapeHtml s = esc s) := by
  refine ⟨fun s => ⟨?_, (escList_angle s.data).1, (escList_angle s.data).2⟩,
    by decide, fun s => rfl⟩
  cases s with
  | mk l => exact congrArg String.mk (unesc_escList l)

/-- C5 counterexample: with `models = []`, the `renderDetailed` matrix
variant returns without touching the DOM — it silently renders nothing
instead of the claimed informational row. -/
theorem c5_counterexample : renderDetailed emptyModelsData = none := rfl

/-- C5 (amended): on empty `models` or `exams`, `renderDetailedResults`
renders the single informational row, but `renderDetailed` silently renders
nothing (it completes without crashing, performing no DOM write). -/
theorem c5_empty_grid (data : ResultSet)
    (h : data.models = [] ∨ data.exams = []) :
    renderDetailed data = none ∧
    renderDetailedResults data =
      ("", "<tr><td style=\"text-align:center\">No detailed results available</td></tr>") := by
  have hc : data.models.length = 0 ∨ data.exams.length = 0 := by
    rcases h with h | h <;> simp [h]
  constructor
  · unfold renderDetailed
    rw [if_pos hc]
  · unfold renderDetailedResults
    rw [if_pos hc]

/-- C5 witness: the amended statement evaluated at `emptyModelsData`. -/
theorem c5_witness :
    renderDetailed emptyModelsData = none ∧
    renderDetailedResults emptyModelsData =
      ("", "<tr><td style=\"text-align:center\">No detailed results available</td></tr>") :=
  c5_empty_grid emptyModelsData (Or.inl rfl)

/-- C6: when the `model` query parameter is absent, or (given a successful
fetch) the named model is not a member of `models`, the detail-page handler
hard-redirects to the index view — the resulting action is exactly the
redirect, with no partial render. -/
theorem c6_detail_redirect (queryModel : Option String)
    (fetched : Except LoadError ResultSet) :
    (queryModel = none → detailPage queryModel fetched = .redirect "index.html") ∧
    (∀ (m : String) (data : ResultSet), queryModel = some m → fetched = .ok data →
      m ∉ data.models → detailPage queryModel fetched = .redirect "index.html") := by
  constructor
  · rintro rfl
    rfl
  · rintro m data rfl rfl hnm
    by_cases hm : m == ""
    · simp [detailPage, hm]
    · simp [detailPage, hm, List.contains, List.elem_eq_mem, hnm]

/-- C6 witness: no query parameter, and an unknown model, both redirect. -/
theorem c6_witness :
    detailPage none (.ok oneModelData) = .redirect "index.html" ∧
    detailPage (some "X") (.ok oneModelData) = .redirect "index.html" :=
  ⟨(c6_detail_redirect none (.ok oneModelData)).1 rfl,
   (c6_detail_redirect (some "X") (.ok oneModelData)).2 "X" oneModelData rfl rfl (by decide)⟩

/-- C7: with every listed model carrying stats, both leaderboard variants
render, for empty `models`, exactly the single placeholder row, and
otherwise one row per model in source `models` order (never re-sorted),
whose rank cell shows `1 + index`, whose score cell shows
`"{passed}/{total}"`, and whose bar width is exactly `percentage`. -/
theorem c7_leaderboard (data : ResultSet)
    (hstats : ∀ m ∈ data.models, (jget data.model_stats m).isSome) :
    (data.models = [] →
      renderLeaderboard data = .ok "<tr><td colspan=\"4\">No results yet</td></tr>" ∧
      renderLeaderboardV2 data =
        .ok "<tr><td colspan=\"4\" style=\"text-align:center\">No results available yet</td></tr>") ∧
    (data.models ≠ [] →
      renderLeaderboard data = .ok (String.join (mapIdxFrom (fun i model =>
        let s := (jget data.model_stats model).getD ⟨0, 0, 0⟩
        "\n            <tr onclick=\"window.location.href=\x27detail.html?model=" ++
          encodeURIComponent model ++
          "\x27\" class=\"clickable\">\n                <td class=\"rank\">" ++
          toString (i + 1) ++ "</td>\n                <td class=\"model\">" ++ esc model ++
          "</td>\n                <td class=\"score\">" ++ toString s.passed ++ "/" ++
          toString s.total ++
          "</td>\n                <td class=\"bar-cell\"><div class=\"bar\"><div class=\"bar-fill\" style=\"width:" ++
          numToStr s.percentage ++ "%\"></div></div></td>\n            </tr>\n        ")
        0 data.models)) ∧
      renderLeaderboardV2 data = .ok (String.join (mapIdxFrom (fun index model =>
        let stats := (jget data.model_stats model).getD ⟨0, 0, 0⟩
        "<tr>" ++
          "\n            <td class=\"rank\">#" ++ toString (index + 1) ++
          "</td>\n            <td class=\"model-name\">" ++ escapeHtml model ++
          "</td>\n            <td class=\"score-pass\">" ++ toString stats.passed ++ "/" ++
          toString stats.total ++
          "</td>\n            <td>\n                <div class=\"progress-bar\">\n                    <div class=\"progress-fill\" style=\"width: " ++
          numToStr stats.percentage ++
          "%\"></div>\n                </div>\n                <span style=\"margin-left: 10px;\">" ++
          numToStr stats.percentage ++ "%</span>\n            </td>\n        " ++ "</tr>")
        0 data.models))) := by
  constructor
  · intro hnil
    constructor
    · unfold renderLeaderboard
      rw [if_pos (by rw [hnil]; rfl)]
    · unfold renderLeaderboardV2
      rw [if_pos (by rw [hnil]; rfl)]
  · intro hne
    have hlen : ¬ data.models.length = 0 := by
      simpa [List.length_eq_zero] using hne
    constructor
    · unfold renderLeaderboard
      rw [if_neg hlen, leaderboard_map_total data.model_stats _ data.models hstats 0]
    · unfold renderLeaderboardV2
      rw [if_neg hlen, leaderboard_map_total data.model_stats _ data.models hstats 0]

set_option maxRecDepth 8192 in
/-- C7 witness: the non-empty clause evaluated at `oneModelData`, with the
produced row evaluated to its literal markup (rank 1, score 1/1, width
100%). -/
theorem c7_witness :
    renderLeaderboard oneModelData =
      .ok ("\n            <tr onclick=\"window.location.href=\x27detail.html?model=A\x27\" class=\"clickable\">\n                <td class=\"rank\">1</td>\n                <td class=\"model\">A</td>\n                <td class=\"score\">1/1</td>\n                <td class=\"bar-cell\"><div class=\"bar\"><div class=\"bar-fill\" style=\"width:100%\"></div></div></td>\n            </tr>\n        ") := by
  have h := ((c7_leaderboard oneModelData (by decide)).2 (by decide)).1
  exact h.trans (congrArg Except.ok (by decide))

/-- C8: on the detail page of a model that has a `detailed_results` entry,
the container is the concatenation of one card per exam in `exams` order,
and every exam whose entry is missing gets the minimal "No result" card —
a missing entry never suppresses the other cards or fails the page. -/
theorem c8_missing_detail_card (data : ResultSet) (modelName : String)
    (detailed : List (String × ExamResult))
    (_hmem : modelName ∈ data.models)
    (hd : jget data.detailed_results modelName = some detailed)
    (hex : data.exams ≠ []) :
    renderExams modelName data = String.join (data.exams.map (examCard detailed)) ∧
    ∀ exam : String, jget detailed exam = none →
      examCard detailed exam =
        "\n                <div class=\"exam-card na\">\n                    <div class=\"exam-header\">\n                        <span class=\"exam-name\">" ++
          esc exam ++
          "</span>\n                        <span class=\"exam-status\">No result</span>\n                    </div>\n                </div>\n            " := by
  constructor
  · unfold renderExams
    rw [hd]
    simp only [List.length_eq_zero]
    rw [if_neg hex]
  · intro exam he
    unfold examCard
    rw [he]

set_option maxRecDepth 8192 in
/-- C8 witness: model `M` with a detail entry only for `E2`: the page is the
join of both cards and exam `E1` gets the "No result" card. -/
theorem c8_witness :
    renderExams "M" partialDetailData =
      String.join (partialDetailData.exams.map (examCard [("E2", sampleResult)])) ∧
    examCard [("E2", sampleResult)] "E1" =
      "\n                <div class=\"exam-card na\">\n                    <div class=\"exam-header\">\n                        <span class=\"exam-name\">E1</span>\n                        <span class=\"exam-status\">No result</span>\n                    </div>\n                </div>\n            " := by
  have h := c8_missing_detail_card partialDetailData "M" [("E2", sampleResult)]
    (by decide) (by decide) (by decide)
  refine ⟨h.1, (h.2 "E1" (by decide)).trans ?_⟩
  decide

/-- C9 counterexample: a *present* but empty `boot_output` yields no section
at all, and a present but empty `agent_output` yields the placeholder — not
the collapsible block the claim promises for every present output. -/
theorem c9_counterexample :
    renderBootOutput (some "") = "" ∧
    renderAgentOutput (some "") =
      "\n            <div class=\"detail-section\">\n                <h4>Agent Output</h4>\n                <p class=\"no-data\">Not available yet</p>\n            </div>\n        " :=
  ⟨rfl, rfl⟩

/-- C9 (amended): an absent `agent_output` still renders the stable
"Not available yet" placeholder section; a present *non-empty*
`boot_output`/`agent_output` renders a collapsible section whose `<pre>`
block starts collapsed (class `output-block collapsed`); an absent
`boot_output` renders nothing; and an empty string behaves like absence. -/
theorem c9_collapsible_sections :
    renderAgentOutput none =
      "\n            <div class=\"detail-section\">\n                <h4>Agent Output</h4>\n                <p class=\"no-data\">Not available yet</p>\n            </div>\n        " ∧
    renderBootOutput none = "" ∧
    (∀ s : String, s ≠ "" →
      renderAgentOutput (some s) =
        "\n        <div class=\"detail-section collapsible\">\n            <h4 class=\"collapsible-header\" onclick=\"toggleCollapse(this)\">\n                Agent Output <span class=\"toggle-icon\">+</span>\n            </h4>\n            <pre class=\"output-block collapsed\">" ++
          esc s ++ "</pre>\n        </div>\n    ") ∧
    (∀ s : String, s ≠ "" →
      renderBootOutput (some s) =
        "\n        <div class=\"detail-section collapsible\">\n            <h4 class=\"collapsible-header\" onclick=\"toggleCollapse(this)\">\n                Boot Output <span class=\"toggle-icon\">+</span>\n            </h4>\n            <pre class=\"output-block collapsed\">" ++
          esc s ++ "</pre>\n        </div>\n    ") := by
  refine ⟨rfl, rfl, ?_, ?_⟩ <;>
    · intro s hs
      simp only [renderAgentOutput, renderBootOutput, Option.getD_some, beq_iff_eq]
      rw [if_neg hs]

/-- C9 witness: the collapsible clauses evaluated at the non-empty output
`"log"`. -/
theorem c9_witness :
    renderAgentOutput (some "log") =
      "\n        <div class=\"detail-section collapsible\">\n            <h4 class=\"collapsible-header\" onclick=\"toggleCollapse(this)\">\n                Agent Output <span class=\"toggle-icon\">+</span>\n            </h4>\n            <pre class=\"output-block collapsed\">" ++
        esc "log" ++ "</pre>\n        </div>\n    " ∧
    renderBootOutput (some "log") =
      "\n        <div class=\"detail-section collapsible\">\n            <h4 class=\"collapsible-header\" onclick=\"toggleCollapse(this)\">\n                Boot Output <span class=\"toggle-icon\">+</span>\n            </h4>\n            <pre class=\"output-block collapsed\">" ++
        esc "log" ++ "</pre>\n        </div>\n    " :=
  ⟨c9_collapsible_sections.2.2.1 "log" (by decide),
   c9_collapsible_sections.2.2.2 "log" (by decide)⟩

/-- C10: an `exam_results` entry that is present but whose `passed` field is
not strictly boolean `true` or `false` is treated by both matrix variants
exactly like an absent pair: neutral marker, `0` added to the row's passed
count; and both row renderers place those cells and that count in the row as
usual. -/
theorem c10_strict_passed (data : ResultSet) (model exam : String) (e : PassEntry)
    (hp : pairLookup data exam model = some e)
    (ht : e.passed ≠ JsVal.bool true) (hf : e.passed ≠ JsVal.bool false) :
    cellV1 (pairLookup data exam model) = cellV1 none ∧
    cellV2 (pairLookup data exam model) = cellV2 none ∧
    passInc (pairLookup data exam model) = passInc none ∧
    cellV1 (pairLookup data exam model) = "<td class=\"na\">-</td>" ∧
    cellV2 (pairLookup data exam model) = "<td class=\"na-icon\">—</td>" ∧
    passInc (pairLookup data exam model) = 0 ∧
    detailedRowV1 data model =
      "<tr><td class=\"model-col\">" ++ esc model ++ "</td>" ++
        String.join (data.exams.map fun ex => cellV1 (pairLookup data ex model)) ++
        "<td class=\"pass\">" ++
        toString ((data.exams.map fun ex => passInc (pairLookup data ex model)).sum) ++
        "/" ++ toString data.exams.length ++ "</td></tr>" ∧
    detailedRowV2 data model =
      "<tr>" ++ ("<td class=\"model-name\">" ++ escapeHtml model ++ "</td>" ++
        String.join (data.exams.map fun ex => cellV2 (pairLookup data ex model))) ++
        "<td class=\"score-pass\">" ++
        toString ((data.exams.map fun ex => passInc (pairLookup data ex model)).sum) ++
        "/" ++ toString data.exams.length ++ "</td>" ++ "</tr>" := by
  rw [hp]
  refine ⟨?_, ?_, ?_, ?_, ?_, ?_, detailedRowV1_char data model, detailedRowV2_char data model⟩ <;>
    simp [cellV1, cellV2, passInc, ht, hf]

/-- C10 witness: the entry `{passed: 1}` (a number, not a boolean) renders
the neutral markers and contributes nothing to the passed count. -/
theorem c10_witness :
    cellV1 (pairLookup nonBoolData "E1" "A") = "<td class=\"na\">-</td>" ∧
    cellV2 (pairLookup nonBoolData "E1" "A") = "<td class=\"na-icon\">—</td>" ∧
    passInc (pairLookup nonBoolData "E1" "A") = 0 := by
  have h := c10_strict_passed nonBoolData "A" "E1" ⟨JsVal.num 1⟩
    (by decide) (by decide) (by decide)
  exact ⟨h.2.2.2.1, h.2.2.2.2.1, h.2.2.2.2.2.1⟩

end CalcBench
